import Mathlib

/-!
Shallow embedding of the material quantity-takeoff calculator of the
Calculadora-obra-gris repository (src/utils/calculations.ts and
src/types.ts), together with theorems settling the specification claims.

JavaScript numbers are modelled as rationals (ℚ); `Math.ceil` is the
integer ceiling `⌈·⌉ : ℚ → ℤ`; the price-override record
`Record<string, number>` is modelled as a partial map `String → Option ℚ`,
and the JavaScript truthiness test `currentPrices[id] || defaultPrice`
(which falls back on `undefined` and on `0`) is modelled explicitly in
`resolvePrice`.
-/

namespace ObraGris

/-- `ConstructionSystem` enum from src/types.ts. -/
inductive ConstructionSystem where
  | TRADITIONAL
  | SIP
  | STEEL_FRAME
  | WOOD_FRAME
  | METAL_PANEL
deriving DecidableEq, Repr

/-- `UserInputs` interface from src/types.ts: five numeric fields. -/
structure UserInputs where
  plateArea : ℚ
  wallHeight : ℚ
  wallPerimeter : ℚ
  windowArea : ℚ
  doorCount : ℚ
deriving DecidableEq, Repr

/-- The four material categories of `MaterialItem.category` in src/types.ts. -/
inductive Category where
  | Platea
  | Muros
  | Aberturas
  | Techo
deriving DecidableEq, Repr

/-- `MaterialItem` interface from src/types.ts. -/
structure MaterialItem where
  id : String
  name : String
  unit : String
  quantity : ℚ
  unitPrice : ℚ
  category : Category
deriving DecidableEq, Repr

/-- The price-override record: a sparse map from material id to price. -/
def Prices : Type := String → Option ℚ

/-- Rounding applied by `addMat` in src/utils/calculations.ts:
`Math.ceil(qty * 100) / 100`. -/
def ceil2 (q : ℚ) : ℚ := ((⌈q * 100⌉ : ℤ) : ℚ) / 100

/-- Price resolution of `addMat`: `currentPrices[id] || defaultPrice`.
In JavaScript a present value of `0` is falsy, so it falls back to the
default exactly as a missing key does. -/
def resolvePrice (currentPrices : Prices) (id : String) (defaultPrice : ℚ) : ℚ :=
  match currentPrices id with
  | some p => if p = 0 then defaultPrice else p
  | none => defaultPrice

/-- One invocation of the `addMat` helper: the arguments of a single call. -/
structure MatCall where
  id : String
  name : String
  unit : String
  qty : ℚ
  category : Category
  defaultPrice : ℚ
deriving DecidableEq, Repr

/-- The `addMat` helper of src/utils/calculations.ts: builds the pushed
`MaterialItem` from the call's arguments and the override record. -/
def addMat (currentPrices : Prices) (c : MatCall) : MaterialItem :=
  { id := c.id
    name := c.name
    unit := c.unit
    quantity := ceil2 c.qty
    unitPrice := resolvePrice currentPrices c.id c.defaultPrice
    category := c.category }

/-- `grossWallArea` local of `calculateMaterials`. -/
def grossWallArea (inputs : UserInputs) : ℚ :=
  inputs.wallPerimeter * inputs.wallHeight

/-- `netWallArea` local of `calculateMaterials`:
`Math.max(0, grossWallArea - windowArea - (doorCount * 2))`. -/
def netWallArea (inputs : UserInputs) : ℚ :=
  max 0 (grossWallArea inputs - inputs.windowArea - inputs.doorCount * 2)

/-- The sequence of `addMat` invocations performed by `calculateMaterials`
(src/utils/calculations.ts lines 25-131), in program order: the Platea
block, then the per-system `switch` (whose last entry is the system's
roof-structure item), then the Aberturas block, then the common Techo
block. -/
def matCalls (inputs : UserInputs) (system : ConstructionSystem) : List MatCall :=
  [⟨"conc_h17", "Hormigón H17 Elaborado", "m³",
      inputs.plateArea * 0.12, .Platea, 180000⟩,
   ⟨"mesh_steel", "Malla Acero Simag (15x15) 5.5mm", "m²",
      inputs.plateArea * 1.10, .Platea, 8500⟩,
   ⟨"poly_film", "Film Polietileno 200 micrones", "m²",
      inputs.plateArea * 1.10, .Platea, 1200⟩]
  ++ (match system with
      | .TRADITIONAL =>
        [⟨"brick_hollow", "Ladrillo Hueco 18x18x33", "unidades",
            netWallArea inputs * 15.5, .Muros, 950⟩,
         ⟨"mortar_mix", "Mortero Asiento (Premezcla)", "kg",
            netWallArea inputs * 25, .Muros, 350⟩,
         ⟨"plaster_mix", "Revoque Listo (Interior/Ext)", "kg",
            netWallArea inputs * 35, .Muros, 450⟩,
         ⟨"roof_struct_metal", "Perfil C Galv. 100x50x15x2mm", "ml",
            inputs.plateArea * 1.5, .Techo, 10500⟩]
      | .SIP =>
        [⟨"sip_panel", "Panel SIP 122x244cm (Espesor std)", "unidades",
            (netWallArea inputs / 2.97) * 1.1, .Muros, 120000⟩,
         ⟨"sip_screws", "Tornillos SIP (Caja)", "unidades",
            netWallArea inputs * 10, .Muros, 250⟩,
         ⟨"osb_95", "Placa OSB 9.5mm (Exterior)", "m²",
            netWallArea inputs * 1.05, .Muros, 9500⟩,
         ⟨"roof_struct_wood", "Tirantes Madera 2\"x6\" (Estructura Techo)", "ml",
            inputs.plateArea * 1.5, .Techo, 7500⟩]
      | .STEEL_FRAME =>
        [⟨"pgc_100", "Perfil PGC 100x40x0.9mm (Montantes)", "ml",
            ((⌈inputs.wallPerimeter / 0.40⌉ : ℤ) : ℚ) * inputs.wallHeight * 1.05,
            .Muros, 8500⟩,
         ⟨"pgu_100", "Perfil PGU 100x35x0.9mm (Soleras)", "ml",
            (inputs.wallPerimeter * 2 + inputs.windowArea * 2) * 1.05, .Muros, 7200⟩,
         ⟨"osb_95", "Placa OSB 9.5mm (Rigidización)", "m²",
            netWallArea inputs * 1.05, .Muros, 9500⟩,
         ⟨"insul_wall", "Lana de Vidrio (Muro)", "m²",
            netWallArea inputs * 1.05, .Muros, 6500⟩,
         ⟨"screw_t1", "Tornillos T1 Punta Mecha", "unidades",
            netWallArea inputs * 30, .Muros, 45⟩,
         ⟨"roof_struct_metal", "Perfil C Galv. 100x50x15x2mm", "ml",
            inputs.plateArea * 1.5, .Techo, 10500⟩]
      | .WOOD_FRAME =>
        [⟨"wood_2x4", "Tirante Pino 2\"x4\" (Estructura)", "ml",
            (((⌈inputs.wallPerimeter / 0.40⌉ : ℤ) : ℚ) * inputs.wallHeight
              + inputs.wallPerimeter * 2) * 1.1, .Muros, 4500⟩,
         ⟨"siding_wood", "Machimbre 3/4\" (19mm) Exterior", "m²",
            netWallArea inputs * 1.1, .Muros, 8500⟩,
         ⟨"insul_wall", "Lana de Vidrio (Muro)", "m²",
            netWallArea inputs * 1.05, .Muros, 6500⟩,
         ⟨"roof_struct_wood", "Tirantes Madera 2\"x6\" (Estructura Techo)", "ml",
            inputs.plateArea * 1.5, .Techo, 7500⟩]
      | .METAL_PANEL =>
        [⟨"metal_panel_wall", "Panel Sándwich Poliuretano (Muro)", "m²",
            netWallArea inputs * 1.05, .Muros, 65000⟩,
         ⟨"tube_100x100", "Tubo Estructural 100x100x2.0mm", "ml",
            ((⌈inputs.wallPerimeter / 3⌉ : ℤ) : ℚ) * inputs.wallHeight,
            .Muros, 18000⟩,
         ⟨"tube_100x50", "Tubo Estructural 100x50x2.0mm", "ml",
            inputs.wallPerimeter * 2, .Muros, 12000⟩,
         ⟨"screw_panel", "Tornillos para Panel", "unidades",
            netWallArea inputs * 8, .Muros, 250⟩,
         ⟨"roof_struct_metal", "Perfil C Galv. 100x50x15x2mm", "ml",
            inputs.plateArea * 1.5, .Techo, 10500⟩])
  ++ [⟨"win_dvh", "Ventanas DVH (Aluminio/PVC)", "m²",
        inputs.windowArea, .Aberturas, 250000⟩,
      ⟨"door_ext", "Puerta Exterior Seguridad", "unidades",
        inputs.doorCount, .Aberturas, 350000⟩]
  ++ [⟨"roof_sheet", "Chapa Sinusoidal Galv. N°25", "m²",
        inputs.plateArea * 1.15, .Techo, 22000⟩,
      ⟨"insul_roof", "Aislante Térmico (Espuma+Alum)", "m²",
        inputs.plateArea * 1.15, .Techo, 6500⟩,
      ⟨"screw_roof", "Tornillo Autoperforante Chapa (con arandela)", "unidades",
        inputs.plateArea * 6, .Techo, 120⟩]

/-- `calculateMaterials` of src/utils/calculations.ts: performs the
`addMat` calls in program order and returns the accumulated list. -/
def calculateMaterials (inputs : UserInputs) (system : ConstructionSystem)
    (currentPrices : Prices) : List MaterialItem :=
  (matCalls inputs system).map (addMat currentPrices)

/-- The empty override record. -/
def noPrices : Prices := fun _ => none

/-- The inputs of the spec's worked example:
slab area 60, wall height 2.6, perimeter 40, window area 8, two doors. -/
def exInputs3 : UserInputs := ⟨60, 2.6, 40, 8, 2⟩

/-- An override record mapping `conc_h17` to price 0 and nothing else. -/
def pricesZeroConc : Prices := fun id => if id = "conc_h17" then some 0 else none

/-- An override record mapping `conc_h17` to price 200000 and nothing else. -/
def prices200 : Prices := fun id => if id = "conc_h17" then some 200000 else none

/-- Position of each category in the order claimed by the spec:
Platea, then Muros, then Aberturas, then Techo. -/
def catIdx : Category → Nat
  | .Platea => 0
  | .Muros => 1
  | .Aberturas => 2
  | .Techo => 3

/-- Number of `Muros`-category items produced by each system's branch of
the `switch`. -/
def murosCount : ConstructionSystem → Nat
  | .TRADITIONAL => 3
  | .SIP => 3
  | .STEEL_FRAME => 5
  | .WOOD_FRAME => 3
  | .METAL_PANEL => 4

/-- The fixed sequence of material ids produced for each system. -/
def idsOf : ConstructionSystem → List String
  | .TRADITIONAL =>
    ["conc_h17", "mesh_steel", "poly_film",
     "brick_hollow", "mortar_mix", "plaster_mix", "roof_struct_metal",
     "win_dvh", "door_ext", "roof_sheet", "insul_roof", "screw_roof"]
  | .SIP =>
    ["conc_h17", "mesh_steel", "poly_film",
     "sip_panel", "sip_screws", "osb_95", "roof_struct_wood",
     "win_dvh", "door_ext", "roof_sheet", "insul_roof", "screw_roof"]
  | .STEEL_FRAME =>
    ["conc_h17", "mesh_steel", "poly_film",
     "pgc_100", "pgu_100", "osb_95", "insul_wall", "screw_t1",
     "roof_struct_metal",
     "win_dvh", "door_ext", "roof_sheet", "insul_roof", "screw_roof"]
  | .WOOD_FRAME =>
    ["conc_h17", "mesh_steel", "poly_film",
     "wood_2x4", "siding_wood", "insul_wall", "roof_struct_wood",
     "win_dvh", "door_ext", "roof_sheet", "insul_roof", "screw_roof"]
  | .METAL_PANEL =>
    ["conc_h17", "mesh_steel", "poly_film",
     "metal_panel_wall", "tube_100x100", "tube_100x50", "screw_panel",
     "roof_struct_metal",
     "win_dvh", "door_ext", "roof_sheet", "insul_roof", "screw_roof"]

/-- The built-in default unit price for each material id: the hard-coded
constant passed as `defaultPrice` at the unique `addMat` call sites using
that id (ids shared between systems are passed the same constant at every
site). -/
def defaultOf : String → ℚ
  | "conc_h17" => 180000
  | "mesh_steel" => 8500
  | "poly_film" => 1200
  | "brick_hollow" => 950
  | "mortar_mix" => 350
  | "plaster_mix" => 450
  | "roof_struct_metal" => 10500
  | "sip_panel" => 120000
  | "sip_screws" => 250
  | "osb_95" => 9500
  | "roof_struct_wood" => 7500
  | "pgc_100" => 8500
  | "pgu_100" => 7200
  | "insul_wall" => 6500
  | "screw_t1" => 45
  | "wood_2x4" => 4500
  | "siding_wood" => 8500
  | "metal_panel_wall" => 65000
  | "tube_100x100" => 18000
  | "tube_100x50" => 12000
  | "screw_panel" => 250
  | "win_dvh" => 250000
  | "door_ext" => 350000
  | "roof_sheet" => 22000
  | "insul_roof" => 6500
  | "screw_roof" => 120
  | _ => 0

/-- The ids of the Muros-block materials whose quantity formula is a
multiple (or scaled quotient) of `netWallArea`. -/
def wallAreaIds : List String :=
  ["brick_hollow", "mortar_mix", "plaster_mix",
   "sip_panel", "sip_screws", "osb_95",
   "insul_wall", "screw_t1",
   "siding_wood",
   "metal_panel_wall", "screw_panel"]

/-! ### Evaluation and monotonicity lemmas for the rounding helper -/

theorem ceil2_eval (q : ℚ) (n : ℤ) (h1 : (n : ℚ) - 1 < q * 100)
    (h2 : q * 100 ≤ n) : ceil2 q = (n : ℚ) / 100 := by
  unfold ceil2
  rw [Int.ceil_eq_iff.mpr ⟨h1, h2⟩]

theorem ceil2_nonneg {q : ℚ} (h : 0 ≤ q) : 0 ≤ ceil2 q := by
  unfold ceil2
  have : (0 : ℤ) ≤ ⌈q * 100⌉ := Int.ceil_nonneg (by positivity)
  positivity

theorem ceil2_mono {a b : ℚ} (h : a ≤ b) : ceil2 a ≤ ceil2 b := by
  unfold ceil2
  have h1 := Int.ceil_mono (mul_le_mul_of_nonneg_right h (by norm_num : (0:ℚ) ≤ 100))
  have h2 : ((⌈a * 100⌉ : ℤ) : ℚ) ≤ ((⌈b * 100⌉ : ℤ) : ℚ) := by exact_mod_cast h1
  linarith

theorem le_ceil2 (q : ℚ) : q ≤ ceil2 q := by
  unfold ceil2
  have := Int.le_ceil (q * 100)
  linarith

theorem ceil2_zero : ceil2 0 = 0 := by
  unfold ceil2; norm_num

/-- Every `addMat` call site passes as `defaultPrice` exactly the
table value `defaultOf` of its id. -/
theorem defaultOf_matCalls {inputs : UserInputs} {system : ConstructionSystem} :
    ∀ c ∈ matCalls inputs system, defaultOf c.id = c.defaultPrice := by
  intro c hc
  cases system <;> fin_cases hc <;> rfl

/-- Every `addMat` call site passes a strictly positive `defaultPrice`. -/
theorem defaultPrice_pos {inputs : UserInputs} {system : ConstructionSystem} :
    ∀ c ∈ matCalls inputs system, 0 < c.defaultPrice := by
  intro c hc
  cases system <;> fin_cases hc <;> norm_num

/-- The first `addMat` call of every run: the slab concrete item. -/
def concCall (inputs : UserInputs) : MatCall :=
  ⟨"conc_h17", "Hormigón H17 Elaborado", "m³",
    inputs.plateArea * 0.12, .Platea, 180000⟩

theorem concCall_mem (inputs : UserInputs) (prices : Prices) :
    addMat prices (concCall inputs) ∈
      calculateMaterials inputs ConstructionSystem.TRADITIONAL prices :=
  List.mem_map_of_mem _ (List.Mem.head _)

/-- Integer-valued concrete inputs used to instantiate the universally
quantified theorems. -/
def exInputsW : UserInputs := ⟨60, 3, 40, 8, 2⟩

/-- The slab concrete item produced for `exInputsW` with no overrides. -/
def exConcItemW : MaterialItem := addMat noPrices (concCall exInputsW)

/-- Concrete inputs for which the openings exceed the gross wall area:
perimeter 1, height 1, window area 5, no doors. -/
def ex4 : UserInputs := ⟨10, 1, 1, 5, 0⟩

/-- The hollow-brick item produced for `ex4` under the Masonry system. -/
def ex4BrickCall : MatCall :=
  ⟨"brick_hollow", "Ladrillo Hueco 18x18x33", "unidades",
    netWallArea ex4 * 15.5, .Muros, 950⟩

end ObraGris

namespace ObraGris

/-! ### Claim theorems -/

/-- C1 counterexample: with the worked-example inputs and the Masonry
system, the category sequence of the returned list is not ordered
Platea ≤ Muros ≤ Aberturas ≤ Techo, because the roof-structure item
(category Techo) is emitted inside the wall `switch`, before the
Aberturas items. -/
theorem c1_counterexample :
    ¬ ((calculateMaterials exInputs3 ConstructionSystem.TRADITIONAL noPrices).map
        (fun m => catIdx m.category)).Sorted (· ≤ ·) := by
  decide

/-- C1 (amended): for every input record, system and override mapping,
the category sequence of the result is exactly three Platea items, then
the system's non-empty Muros block, then one Techo item (the roof
structure), then two Aberturas items, then three Techo items. -/
theorem c1_category_blocks (inputs : UserInputs) (system : ConstructionSystem)
    (prices : Prices) :
    (calculateMaterials inputs system prices).map (fun m => m.category) =
      List.replicate 3 Category.Platea
        ++ List.replicate (murosCount system) Category.Muros
        ++ [Category.Techo]
        ++ List.replicate 2 Category.Aberturas
        ++ List.replicate 3 Category.Techo
    ∧ 0 < murosCount system := by
  cases system <;> exact ⟨rfl, by decide⟩

/-- C2 counterexample: with an override mapping `conc_h17` to the
non-negative price 0, the returned `conc_h17` item does not carry the
override value 0 — it falls back to the built-in default. -/
theorem c2_counterexample :
    ∃ item ∈ calculateMaterials exInputs3 ConstructionSystem.TRADITIONAL pricesZeroConc,
      pricesZeroConc item.id = some 0 ∧ item.unitPrice ≠ 0 := by
  decide

/-- C2 (amended): every returned item's unit price is the override value
when the mapping holds a non-zero entry for the item's id, and the
built-in per-id default when the entry is absent or equal to 0 (the
JavaScript `||` fallback treats a 0 override as missing). -/
theorem c2_price_resolution (inputs : UserInputs) (system : ConstructionSystem)
    (prices : Prices) (item : MaterialItem)
    (hitem : item ∈ calculateMaterials inputs system prices) :
    item.unitPrice = resolvePrice prices item.id (defaultOf item.id) := by
  obtain ⟨c, hc, rfl⟩ := List.mem_map.1 hitem
  show resolvePrice prices c.id c.defaultPrice = resolvePrice prices c.id (defaultOf c.id)
  rw [defaultOf_matCalls c hc]

/-- Witness for C2 (amended): at the worked-example inputs with the
override `conc_h17 ↦ 200000`, the slab concrete item's unit price is
resolved from the override table. -/
theorem c2_price_resolution_witness :
    (addMat prices200 (concCall exInputs3)).unitPrice =
      resolvePrice prices200 (addMat prices200 (concCall exInputs3)).id
        (defaultOf (addMat prices200 (concCall exInputs3)).id) :=
  c2_price_resolution exInputs3 ConstructionSystem.TRADITIONAL prices200 _
    (concCall_mem exInputs3 prices200)

/-- C3: with the spec's worked inputs (slab 60, height 2.6, perimeter 40,
windows 8, two doors) under Masonry and no overrides, the net wall area is
92, the `conc_h17` quantity is 7.20 and the `brick_hollow` quantity is
1426.00. -/
theorem c3_worked_example :
    netWallArea exInputs3 = 92 ∧
    (∃ item ∈ calculateMaterials exInputs3 ConstructionSystem.TRADITIONAL noPrices,
      item.id = "conc_h17" ∧ item.quantity = 7.2) ∧
    (∃ item ∈ calculateMaterials exInputs3 ConstructionSystem.TRADITIONAL noPrices,
      item.id = "brick_hollow" ∧ item.quantity = 1426) := by
  have hnet : netWallArea exInputs3 = 92 := by
    show max 0 (grossWallArea exInputs3 - exInputs3.windowArea - exInputs3.doorCount * 2) = 92
    show max 0 (40 * 2.6 - 8 - 2 * 2 : ℚ) = 92
    rw [show (40 * 2.6 - 8 - 2 * 2 : ℚ) = 92 by norm_num]
    exact max_eq_right (by norm_num)
  refine ⟨hnet, ⟨addMat noPrices (concCall exInputs3),
    concCall_mem exInputs3 noPrices, rfl, ?_⟩, ?_⟩
  · show ceil2 (exInputs3.plateArea * 0.12) = 7.2
    show ceil2 (60 * 0.12 : ℚ) = 7.2
    rw [ceil2_eval _ 720 (by norm_num) (by norm_num)]
    norm_num
  · refine ⟨addMat noPrices ⟨"brick_hollow", "Ladrillo Hueco 18x18x33", "unidades",
        netWallArea exInputs3 * 15.5, .Muros, 950⟩, ?_, rfl, ?_⟩
    · exact List.mem_map_of_mem _
        (List.Mem.tail _ (List.Mem.tail _ (List.Mem.tail _ (List.Mem.head _))))
    · show ceil2 (netWallArea exInputs3 * 15.5) = 1426
      rw [hnet]
      rw [ceil2_eval _ 142600 (by norm_num) (by norm_num)]
      norm_num

/-- C4: for non-negative inputs whose window and door area reaches the
gross wall area, every wall-area-derived Muros quantity is 0 (never
negative), because `netWallArea` clamps at 0. -/
theorem c4_net_area_clamp (inputs : UserInputs) (system : ConstructionSystem)
    (prices : Prices)
    (h0 : 0 ≤ inputs.plateArea) (h1 : 0 ≤ inputs.wallHeight)
    (h2 : 0 ≤ inputs.wallPerimeter) (h3 : 0 ≤ inputs.windowArea)
    (h4 : 0 ≤ inputs.doorCount)
    (hge : inputs.wallPerimeter * inputs.wallHeight ≤
      inputs.windowArea + inputs.doorCount * 2) :
    ∀ item ∈ calculateMaterials inputs system prices,
      item.id ∈ wallAreaIds → item.quantity = 0 := by
  have hnet : netWallArea inputs = 0 := by
    unfold netWallArea grossWallArea
    exact max_eq_left (by linarith)
  intro item hitem hid
  obtain ⟨c, hc, rfl⟩ := List.mem_map.1 hitem
  show ceil2 c.qty = 0
  cases system <;> fin_cases hc <;> simp only [addMat] at hid <;>
    first
    | exact absurd hid (by decide)
    | simp [hnet, ceil2_zero]

/-- Witness for C4: with perimeter 1, height 1, window area 5 and no
doors, the Masonry hollow-brick quantity is 0. -/
theorem c4_net_area_clamp_witness :
    (addMat noPrices ex4BrickCall).quantity = 0 :=
  c4_net_area_clamp ex4 ConstructionSystem.TRADITIONAL noPrices
    (by decide) (by decide) (by decide) (by decide) (by decide)
    (by norm_num [ex4])
    (addMat noPrices ex4BrickCall)
    (List.mem_map_of_mem _
      (List.Mem.tail _ (List.Mem.tail _ (List.Mem.tail _ (List.Mem.head _)))))
    (by decide)

/-- C5: pointwise along the result, every stored quantity is the
two-decimal ceiling of the raw formula value of the corresponding
`addMat` call, hence never less than the raw value; and the rounding
helper maps 12.341 to 12.35 and 12.34 to 12.34. -/
theorem c5_rounding (inputs : UserInputs) (system : ConstructionSystem)
    (prices : Prices) :
    List.Forall₂ (fun c item => item.quantity = ceil2 c.qty ∧ c.qty ≤ item.quantity)
      (matCalls inputs system) (calculateMaterials inputs system prices)
    ∧ ceil2 12.341 = 12.35 ∧ ceil2 12.34 = 12.34 := by
  refine ⟨?_, ?_, ?_⟩
  · unfold calculateMaterials
    rw [List.forall₂_map_right_iff, List.forall₂_same]
    intro c _
    exact ⟨rfl, le_ceil2 _⟩
  · rw [ceil2_eval _ 1235 (by norm_num) (by norm_num)]; norm_num
  · rw [ceil2_eval _ 1234 (by norm_num) (by norm_num)]; norm_num

/-- C6: the sequence of material ids of the result is a constant
depending only on the system (so no item is dropped for a zero quantity),
and it contains no duplicate id. -/
theorem c6_stable_ids (inputs : UserInputs) (system : ConstructionSystem)
    (prices : Prices) :
    (calculateMaterials inputs system prices).map (fun m => m.id) = idsOf system
    ∧ (idsOf system).Nodup := by
  cases system <;> exact ⟨rfl, by decide⟩

/-- C7: the calculator is deterministic — equal inputs, system and
override mapping give identical result lists, and as a pure function it
has no side effects on its arguments. -/
theorem c7_deterministic (i₁ i₂ : UserInputs) (s₁ s₂ : ConstructionSystem)
    (p₁ p₂ : Prices) (hi : i₁ = i₂) (hs : s₁ = s₂) (hp : p₁ = p₂) :
    calculateMaterials i₁ s₁ p₁ = calculateMaterials i₂ s₂ p₂ := by
  rw [hi, hs, hp]

/-- Witness for C7: two runs at the worked-example inputs coincide. -/
theorem c7_deterministic_witness :
    calculateMaterials exInputs3 ConstructionSystem.TRADITIONAL noPrices =
      calculateMaterials exInputs3 ConstructionSystem.TRADITIONAL noPrices :=
  c7_deterministic exInputs3 exInputs3 ConstructionSystem.TRADITIONAL
    ConstructionSystem.TRADITIONAL noPrices noPrices rfl rfl rfl

/-- C8: increasing `plateArea` with all other fields held fixed never
decreases the quantity of any Platea- or Techo-category item
(pointwise along the two result lists, which have identical shape). -/
theorem c8_plate_area_monotone (inputs : UserInputs) (system : ConstructionSystem)
    (prices : Prices) (a' : ℚ)
    (h0 : 0 ≤ inputs.plateArea) (h1 : 0 ≤ inputs.wallHeight)
    (h2 : 0 ≤ inputs.wallPerimeter) (h3 : 0 ≤ inputs.windowArea)
    (h4 : 0 ≤ inputs.doorCount)
    (ha : inputs.plateArea ≤ a') :
    List.Forall₂
      (fun x y => (x.category = Category.Platea ∨ x.category = Category.Techo) →
        x.quantity ≤ y.quantity)
      (calculateMaterials inputs system prices)
      (calculateMaterials { inputs with plateArea := a' } system prices) := by
  cases system <;>
    (simp only [calculateMaterials, matCalls, addMat, List.map_cons, List.map_append,
       List.map_nil, List.cons_append, List.nil_append, List.forall₂_cons,
       List.Forall₂.nil, and_true]
     repeat' apply And.intro) <;>
    first
    | exact List.Forall₂.nil
    | (intro hcat
       first
       | exact le_rfl
       | exact ceil2_mono (mul_le_mul_of_nonneg_right ha (by norm_num)))

/-- Witness for C8: raising the slab area from 60 to 70 at the concrete
inputs never lowers a Platea or Techo quantity. -/
theorem c8_plate_area_monotone_witness :
    List.Forall₂
      (fun x y => (x.category = Category.Platea ∨ x.category = Category.Techo) →
        x.quantity ≤ y.quantity)
      (calculateMaterials exInputsW ConstructionSystem.TRADITIONAL noPrices)
      (calculateMaterials { exInputsW with plateArea := 70 }
        ConstructionSystem.TRADITIONAL noPrices) :=
  c8_plate_area_monotone exInputsW ConstructionSystem.TRADITIONAL noPrices 70
    (by decide) (by decide) (by decide) (by decide) (by decide) (by decide)

set_option maxHeartbeats 1000000 in
/-- C9: with all five input fields non-negative, every returned item's
quantity is non-negative, for every system and override mapping. -/
theorem c9_quantities_nonneg (inputs : UserInputs) (system : ConstructionSystem)
    (prices : Prices)
    (h0 : 0 ≤ inputs.plateArea) (h1 : 0 ≤ inputs.wallHeight)
    (h2 : 0 ≤ inputs.wallPerimeter) (h3 : 0 ≤ inputs.windowArea)
    (h4 : 0 ≤ inputs.doorCount) :
    ∀ item ∈ calculateMaterials inputs system prices, 0 ≤ item.quantity := by
  have hnet : 0 ≤ netWallArea inputs := le_max_left _ _
  have hceilP : (0 : ℚ) ≤ ((⌈inputs.wallPerimeter / 0.40⌉ : ℤ) : ℚ) := by
    exact_mod_cast Int.ceil_nonneg (div_nonneg h2 (by norm_num))
  have hceil3 : (0 : ℚ) ≤ ((⌈inputs.wallPerimeter / 3⌉ : ℤ) : ℚ) := by
    exact_mod_cast Int.ceil_nonneg (div_nonneg h2 (by norm_num))
  intro item hitem
  obtain ⟨c, hc, rfl⟩ := List.mem_map.1 hitem
  show 0 ≤ ceil2 c.qty
  apply ceil2_nonneg
  cases system <;> fin_cases hc <;> dsimp only <;>
    nlinarith [h0, h1, h2, h3, h4, hnet, mul_nonneg hceilP h1, mul_nonneg hceil3 h1,
      div_nonneg hnet (show (0:ℚ) ≤ 2.97 by norm_num)]

/-- Witness for C9: the slab concrete quantity at the concrete inputs is
non-negative. -/
theorem c9_quantities_nonneg_witness : 0 ≤ exConcItemW.quantity :=
  c9_quantities_nonneg exInputsW ConstructionSystem.TRADITIONAL noPrices
    (by decide) (by decide) (by decide) (by decide) (by decide)
    exConcItemW (concCall_mem exInputsW noPrices)

/-- C10: when every override value is non-negative, every returned item's
unit price is strictly positive, and an override entry of exactly 0 makes
the item carry its built-in default instead of 0. -/
theorem c10_unit_price_pos (inputs : UserInputs) (system : ConstructionSystem)
    (prices : Prices) (hp : ∀ id p, prices id = some p → 0 ≤ p) :
    ∀ item ∈ calculateMaterials inputs system prices,
      0 < item.unitPrice ∧
        (prices item.id = some 0 → item.unitPrice = defaultOf item.id) := by
  intro item hitem
  obtain ⟨c, hc, rfl⟩ := List.mem_map.1 hitem
  have hd : 0 < c.defaultPrice := defaultPrice_pos c hc
  have hdof : defaultOf c.id = c.defaultPrice := defaultOf_matCalls c hc
  show 0 < resolvePrice prices c.id c.defaultPrice ∧
    (prices c.id = some 0 → resolvePrice prices c.id c.defaultPrice = defaultOf c.id)
  unfold resolvePrice
  constructor
  · cases hcp : prices c.id with
    | none => exact hd
    | some p =>
      by_cases hz : p = 0
      · simp [hz, hd]
      · simp only [if_neg hz]
        exact lt_of_le_of_ne (hp _ _ hcp) (Ne.symm hz)
  · intro hzero
    rw [hzero]
    simp [hdof]

/-- Witness for C10: with no overrides, the slab concrete item's unit
price is strictly positive. -/
theorem c10_unit_price_pos_witness :
    0 < exConcItemW.unitPrice ∧
      (noPrices exConcItemW.id = some 0 →
        exConcItemW.unitPrice = defaultOf exConcItemW.id) :=
  c10_unit_price_pos exInputsW ConstructionSystem.TRADITIONAL noPrices
    (fun _ _ h => nomatch h) exConcItemW (concCall_mem exInputsW noPrices)

end ObraGris
